import Mathlib

/-!
Shallow embedding of the abn-amro-mcp tools module.

The definitions below are translated from the current tools module
(src/unnamed/part_000, the tools.ts revision that defines all five adapters
and whose schemas match the tool registration in src/src/index.ts) together
with the server registration in src/src/index.ts.  JavaScript numbers are
modelled as rationals; upstream JSON payloads are modelled as structures of
optional fields (absent = none); the network is modelled by an explicit
upstream-outcome argument; a thrown JavaScript exception is modelled as
Except.error.
-/

namespace AbnAmro

/-- Loosely typed JSON value, used for passthrough fields and request bodies. -/
inductive Jval where
  | str (s : String)
  | num (q : ℚ)
  | jbool (b : Bool)
  | arr (l : List Jval)
  | obj (fields : List (String × Jval))
  | null

/-- Sustainability discount labels accepted by the schema (tools lines 13-16). -/
inductive SustainabilityLabel where
  | B
  | A_OR_HIGHER
  deriving DecidableEq

/-- Validated discount variants: the closed discriminated union of the schema
(tools lines 9-17). -/
inductive Discount where
  | bankAccount
  | sustainability (label : SustainabilityLabel)
  deriving DecidableEq

/-- A validated InterestRateRequest, the output of InterestRateRequestSchema.parse
with defaults applied (tools lines 6-19).  The source field names are kept:
the spec calls the type field repaymentType and the inactive field includeInactive. -/
structure InterestRateRequest where
  product : String
  type : String
  discounts : List Discount
  inactive : Bool
  deriving DecidableEq

/-- Raw discount object as supplied by the caller before validation. -/
structure RawDiscount where
  type : String
  label : Option String
  deriving DecidableEq

/-- Raw arguments to calculate-interest-rate before validation; optional fields
model absent properties. -/
structure RawInterestRateArgs where
  product : String
  type : String
  discounts : Option (List RawDiscount)
  inactive : Option Bool
  deriving DecidableEq

/-- The closed product enum of InterestRateRequestSchema (tools line 7). -/
def interestRateProducts : List String := ["BUDGET", "WONING"]

/-- The closed repayment-type enum of InterestRateRequestSchema (tools line 8). -/
def interestRateTypes : List String := ["ANNUITAIR", "LINEAIR", "AFLOSSINGSVRIJ"]

/-- Validation of one discount against the discriminated union (tools lines 9-17). -/
def parseDiscount (d : RawDiscount) : Except String Discount :=
  if d.type = "BANK_ACCOUNT" then .ok .bankAccount
  else if d.type = "SUSTAINABILITY" then
    match d.label with
    | some "B" => .ok (.sustainability .B)
    | some "A_OR_HIGHER" => .ok (.sustainability .A_OR_HIGHER)
    | _ => .error "Invalid enum value for label"
  else .error "Invalid discriminator value for discount"

/-- Validation of a discount list, failing on the first invalid entry. -/
def parseDiscounts : List RawDiscount → Except String (List Discount)
  | [] => .ok []
  | d :: ds =>
    match parseDiscount d with
    | .error e => .error e
    | .ok x =>
      match parseDiscounts ds with
      | .error e => .error e
      | .ok xs => .ok (x :: xs)

/-- InterestRateRequestSchema.parse (tools lines 6-19): enum checks on product and
type, validation of the discounts union, defaults discounts to the empty list and
inactive to false.  A zod failure is modelled as Except.error. -/
def parseInterestRateRequest (args : RawInterestRateArgs) : Except String InterestRateRequest :=
  if args.product ∈ interestRateProducts then
    if args.type ∈ interestRateTypes then
      match parseDiscounts (args.discounts.getD []) with
      | .error e => .error e
      | .ok ds =>
        .ok { product := args.product, type := args.type, discounts := ds,
              inactive := args.inactive.getD false }
    else .error "Invalid enum value for type"
  else .error "Invalid enum value for product"

/-- URL model: a base address plus ordered query parameters, as built with
the URL and URLSearchParams objects in the source. -/
structure Url where
  base : String
  query : List (String × String)
  deriving DecidableEq

/-- Serialization of query parameters, key=value joined by ampersands. -/
def renderQuery : List (String × String) → String
  | [] => ""
  | [(k, v)] => k ++ "=" ++ v
  | (k, v) :: kv :: rest => k ++ "=" ++ v ++ "&" ++ renderQuery (kv :: rest)

/-- url.toString(): the base, then a question mark and the query when non-empty. -/
def Url.render (u : Url) : String :=
  if u.query.isEmpty then u.base else u.base ++ "?" ++ renderQuery u.query

inductive HttpMethod where
  | get
  | post
  deriving DecidableEq

/-- The outbound HTTP request an adapter hands to fetch. -/
structure HttpRequest where
  method : HttpMethod
  url : Url
  headers : List (String × String)
  body : Option (List (String × Jval))

def SustainabilityLabel.toStr : SustainabilityLabel → String
  | .B => "B"
  | .A_OR_HIGHER => "A_OR_HIGHER"

/-- JSON serialization of a validated discount, as JSON.stringify renders it. -/
def Discount.toJval : Discount → Jval
  | .bankAccount => .obj [("type", .str "BANK_ACCOUNT")]
  | .sustainability l => .obj [("type", .str "SUSTAINABILITY"), ("label", .str l.toStr)]

def interestRateBaseUrl : String :=
  "https://hypotheken.abnamro.nl/mortgage-customer-interest-rate-calculation/v1/interest-rates/calculate"

/-- Construction of the upstream POST request (tools lines 38-55): the body holds
exactly product, type and discounts in that order; the inactive flag only ever
reaches the URL query, and only when true. -/
def buildInterestRateRequest (req : InterestRateRequest) : HttpRequest :=
  { method := .post
  , url := { base := interestRateBaseUrl
           , query := if req.inactive then [("inactive", "true")] else [] }
  , headers := [("Content-Type", "application/json")]
  , body := some [ ("product", .str req.product)
                 , ("type", .str req.type)
                 , ("discounts", .arr (req.discounts.map Discount.toJval)) ] }

/-- Outcome of one upstream HTTP exchange: transport failure (fetch rejects),
non-2xx response (status and body text), malformed JSON body, or a parsed payload. -/
inductive UpstreamOutcome (α : Type) where
  | transportFailure (msg : String)
  | httpFailure (status : Nat) (bodyText : String)
  | invalidJson (msg : String)
  | ok (payload : α)

/-- The exception the try-block raises for a failed exchange (tools lines 57-60:
non-ok responses raise an error embedding status and body text), or the payload. -/
def UpstreamOutcome.toExcept {α : Type} : UpstreamOutcome α → Except String α
  | .transportFailure m => .error m
  | .httpFailure status bodyText =>
      .error ("ABN AMRO API error (" ++ toString status ++ "): " ++ bodyText)
  | .invalidJson m => .error m
  | .ok a => .ok a

/-- One entry of the raw upstream rates list inside a period; fields the code
reads are r.type, r.ltv and r.value, each possibly absent except the tag. -/
structure RawRate where
  type : String
  ltv : Option String
  value : Option ℚ
  deriving DecidableEq

/-- One entry of the raw upstream periods list (tools lines 78-91 read these fields). -/
structure RawPeriod where
  duration : ℚ
  inactive : Option Bool
  type : Option String
  reflectionPeriod : Option ℚ
  rates : Option (List RawRate)
  deriving DecidableEq

/-- The loosely typed upstream interest-rate payload; only fields the adapter
reads are modelled, all absent-tolerant. -/
structure InterestRatePayload where
  overbruggingskrediet : Option Jval
  renteblad : Option Jval
  overbruggingskredieten : Option Jval
  periods : Option (List RawPeriod)
  interestRate : Option Jval
  effectiveRate : Option Jval
  baseRate : Option Jval
  appliedDiscounts : Option Jval
  calculationDate : Option Jval

/-- One reshaped loan-to-value entry, tools lines 86-89. -/
structure LtvEntry where
  range : Option String
  rate : Option ℚ
  deriving DecidableEq

/-- The normalized rates sub-record of one period, tools lines 84-90.
lifeTimeValue is an Option because the whole optional chain on period.rates
short-circuits to undefined when rates is absent. -/
structure NormalizedRates where
  dutchNationalMortgageGuarantee : Option ℚ
  lifeTimeValue : Option (List LtvEntry)
  deriving DecidableEq

/-- One normalized period of the adapter output, tools lines 78-91. -/
structure NormalizedPeriod where
  duration : ℚ
  durationInYears : ℚ
  inactive : Option Bool
  type : Option String
  reflectionPeriod : Option ℚ
  rates : NormalizedRates
  deriving DecidableEq

/-- Math.round: round half toward positive infinity, as floor of x plus one half. -/
def jsRound (x : ℚ) : ℤ := ⌊x + 1/2⌋

/-- Normalization of one period's rates (tools lines 84-90): the value of the
first entry tagged NHG via find, and every entry tagged LTV reshaped; when the
rates list is absent both chains short-circuit to undefined. -/
def normalizeRates (rates : Option (List RawRate)) : NormalizedRates :=
  { dutchNationalMortgageGuarantee :=
      match rates with
      | none => none
      | some l => (l.find? (fun r => r.type == "NHG")).bind RawRate.value
  , lifeTimeValue :=
      match rates with
      | none => none
      | some l => some ((l.filter (fun r => r.type == "LTV")).map
          (fun r => { range := r.ltv, rate := r.value })) }

/-- Normalization of one period (tools lines 78-91), including
durationInYears = Math.round(duration / 12 * 10) / 10. -/
def normalizePeriod (p : RawPeriod) : NormalizedPeriod :=
  { duration := p.duration
  , durationInYears := (jsRound (p.duration / 12 * 10) : ℚ) / 10
  , inactive := p.inactive
  , type := p.type
  , reflectionPeriod := p.reflectionPeriod
  , rates := normalizeRates p.rates }

/-- The bridging-credit summary of the success payload, tools lines 72-76. -/
structure BridgingCredit where
  rate : Option Jval
  rateSheetDate : Option Jval
  options : Option Jval

/-- The success data of calculate-interest-rate, tools lines 70-104. -/
structure InterestRateData where
  bridgingCredit : BridgingCredit
  periods : List NormalizedPeriod
  interestRate : Option Jval
  effectiveRate : Option Jval
  baseRate : Option Jval
  appliedDiscounts : Option Jval
  calculationDate : Option Jval
  requestParameters : InterestRateRequest

/-- The unified tool-result envelope: the object serialized into the single
text content block, with success flag and either data or error. -/
structure ToolResult (α : Type) where
  success : Bool
  data : Option α
  error : Option String

def mkSuccess {α : Type} (d : α) : ToolResult α :=
  { success := true, data := some d, error := none }

def mkFailure {α : Type} (pfx msg : String) : ToolResult α :=
  { success := false, data := none, error := some (pfx ++ msg) }

def interestRateFailureText : String := "Failed to calculate interest rate: "

/-- Mapping of the parsed upstream payload into the success data
(tools lines 68-104): data.periods?.map(...) || [] yields the empty list when
periods is absent. -/
def mkInterestRateData (req : InterestRateRequest) (d : InterestRatePayload) :
    InterestRateData :=
  { bridgingCredit := { rate := d.overbruggingskrediet
                      , rateSheetDate := d.renteblad
                      , options := d.overbruggingskredieten }
  , periods := match d.periods with
      | some l => l.map normalizePeriod
      | none => []
  , interestRate := d.interestRate
  , effectiveRate := d.effectiveRate
  , baseRate := d.baseRate
  , appliedDiscounts := d.appliedDiscounts
  , calculationDate := d.calculationDate
  , requestParameters := req }

/-- calculateInterestRate (tools lines 34-122): parse, exchange, normalize; the
surrounding try/catch turns every raised error into a failure envelope with the
fixed message text. -/
def calculateInterestRate (args : RawInterestRateArgs)
    (outcome : UpstreamOutcome InterestRatePayload) : ToolResult InterestRateData :=
  match parseInterestRateRequest args with
  | .error e => mkFailure interestRateFailureText e
  | .ok req =>
    match outcome.toExcept with
    | .error e => mkFailure interestRateFailureText e
    | .ok payload => mkSuccess (mkInterestRateData req payload)

/-- The upstream request a calculate-interest-rate invocation issues: none when
validation fails, since the parse throws before the fetch is reached. -/
def interestRateUpstreamRequest (args : RawInterestRateArgs) : Option HttpRequest :=
  match parseInterestRateRequest args with
  | .error _ => none
  | .ok req => some (buildInterestRateRequest req)

/-- Raw arguments to calculate-maximum-mortgage before validation. -/
structure RawMaximumMortgageArgs where
  mainIncome : Option ℚ
  partnerIncome : Option ℚ
  deriving DecidableEq

/-- A validated MaximumMortgageRequest (tools lines 21-24). -/
structure MaximumMortgageRequest where
  mainIncome : ℚ
  partnerIncome : Option ℚ
  deriving DecidableEq

/-- MaximumMortgageRequestSchema.parse (tools lines 21-24): mainIncome required
and non-negative, partnerIncome optional and non-negative when present. -/
def parseMaximumMortgageRequest (args : RawMaximumMortgageArgs) :
    Except String MaximumMortgageRequest :=
  match args.mainIncome with
  | none => .error "Required"
  | some m =>
    if m < 0 then .error "Number must be greater than or equal to 0"
    else
      match args.partnerIncome with
      | none => .ok { mainIncome := m, partnerIncome := none }
      | some p =>
        if p < 0 then .error "Number must be greater than or equal to 0"
        else .ok { mainIncome := m, partnerIncome := some p }

/-- Models Number.prototype.toString on the rationals of this embedding; exact
on integers, which are the only values serialized concretely in the claims. -/
def jsNumToString (q : ℚ) : String :=
  if q.den = 1 then toString q.num else toString q

def maximumMortgageBaseUrl : String :=
  "https://hypotheken.abnamro.nl/hypotheekorientatie/api/v1.0/snelle-hypotheek-berekening"

/-- Construction of the upstream GET request (tools lines 128-139): mainIncome
always appended, partnerIncome appended only when defined. -/
def buildMaximumMortgageRequest (req : MaximumMortgageRequest) : HttpRequest :=
  { method := .get
  , url := { base := maximumMortgageBaseUrl
           , query := [("mainIncome", jsNumToString req.mainIncome)] ++
               (match req.partnerIncome with
                | some p => [("partnerIncome", jsNumToString p)]
                | none => []) }
  , headers := [("Accept", "application/json")]
  , body := none }

/-- The value object inside the upstream maximum-mortgage payload. -/
structure MortgageValue where
  maximumMortgage : Option ℚ
  monthlyPayment : Option ℚ
  interest : Option ℚ
  deriving DecidableEq

/-- The loosely typed upstream maximum-mortgage payload. -/
structure MaximumMortgagePayload where
  value : Option MortgageValue
  messages : Option Jval

/-- Semantics of the JavaScript expression x || null on an optional number:
null when x is absent or falsy (zero), x itself otherwise. -/
def jsOrNull (x : Option ℚ) : Option ℚ :=
  match x with
  | none => none
  | some v => if v = 0 then none else some v

/-- The success data of calculate-maximum-mortgage, tools lines 154-163. -/
structure MaximumMortgageData where
  maximumMortgage : Option ℚ
  monthlyPayment : Option ℚ
  interest : Option ℚ
  messages : Option Jval
  requestParameters : MaximumMortgageRequest

def maximumMortgageFailureText : String := "Failed to calculate maximum mortgage: "

/-- Mapping of the parsed upstream payload into the success data (tools lines
154-163): each numeric field goes through data.value?.field || null. -/
def mkMaximumMortgageData (req : MaximumMortgageRequest) (d : MaximumMortgagePayload) :
    MaximumMortgageData :=
  { maximumMortgage := jsOrNull (d.value.bind MortgageValue.maximumMortgage)
  , monthlyPayment := jsOrNull (d.value.bind MortgageValue.monthlyPayment)
  , interest := jsOrNull (d.value.bind MortgageValue.interest)
  , messages := d.messages
  , requestParameters := req }

/-- calculateMaximumMortgage (tools lines 124-181): parse, exchange, extract; the
surrounding try/catch turns every raised error into a failure envelope. -/
def calculateMaximumMortgage (args : RawMaximumMortgageArgs)
    (outcome : UpstreamOutcome MaximumMortgagePayload) : ToolResult MaximumMortgageData :=
  match parseMaximumMortgageRequest args with
  | .error e => mkFailure maximumMortgageFailureText e
  | .ok req =>
    match outcome.toExcept with
    | .error e => mkFailure maximumMortgageFailureText e
    | .ok payload => mkSuccess (mkMaximumMortgageData req payload)

/-- The upstream request a calculate-maximum-mortgage invocation issues: none
when validation fails. -/
def maximumMortgageUpstreamRequest (args : RawMaximumMortgageArgs) : Option HttpRequest :=
  match parseMaximumMortgageRequest args with
  | .error _ => none
  | .ok req => some (buildMaximumMortgageRequest req)

/-- Threshold constant, tools line 30. -/
def MaxTransferTaxPremiumCap : ℚ := 525000

/-- Rate constant, tools line 31. -/
def TransferTaxRate : ℚ := 2 / 100

/-- Deduction constant, tools line 32. -/
def MaxInterestRepaymentDeductionRate : ℚ := 3748 / 100

/-- The success data of the property-transfer-tax adapter, tools lines 231-234. -/
structure PropertyTransferTaxData where
  taxQuota : ℚ
  description : String
  deriving DecidableEq

def transferTaxDescription : String :=
  "Dutch property transfer tax for 2025: 2% of the purchase price for properties above the premium cap"

/-- HouseTaxQuotaRequestSchema.parse (tools lines 26-28): housePrice non-negative. -/
def parseHouseTaxQuotaRequest (housePrice : ℚ) : Except String ℚ :=
  if housePrice < 0 then .error "Number must be greater than or equal to 0"
  else .ok housePrice

/-- getPropertyTransferTax (tools lines 218-239).  The schema parse on line 219
stands outside any try/catch, so a validation failure propagates to the caller;
this is modelled by the Except return.  On a valid price the adapter always
returns a success envelope with taxQuota = housePrice * rate above the cap and
zero otherwise. -/
def getPropertyTransferTax (housePrice : ℚ) :
    Except String (ToolResult PropertyTransferTaxData) :=
  match parseHouseTaxQuotaRequest housePrice with
  | .error e => .error e
  | .ok hp =>
    .ok (mkSuccess
      { taxQuota := if hp > MaxTransferTaxPremiumCap then hp * TransferTaxRate else 0
      , description := transferTaxDescription })

/-- The success data of the two constant fact adapters. -/
structure FixedFactData where
  deductionPercentage : ℚ
  description : String
  deriving DecidableEq

/-- getMortageInterestRateDeduction (tools lines 183-198): a constant success envelope. -/
def getMortageInterestRateDeduction : ToolResult FixedFactData :=
  mkSuccess { deductionPercentage := MaxInterestRepaymentDeductionRate
            , description := "Maximum tax deduction rate for mortgage interest payments" }

/-- getMaximumMortageNationalHomeGuarantee (tools lines 200-216): a constant success envelope. -/
def getMaximumMortageNationalHomeGuarantee : ToolResult FixedFactData :=
  mkSuccess { deductionPercentage := 450000
            , description := "Dutch National Mortgage Guarantee limit for 2025" }

/-- Well-formedness of an envelope with a given failure message text: either a
success carrying data and no error, or a failure carrying no data and an error
string starting with the fixed text. -/
def ToolResult.wellFormed {α : Type} (r : ToolResult α) (pfx : String) : Prop :=
  (r.success = true ∧ r.error = none ∧ r.data.isSome = true) ∨
  (r.success = false ∧ r.data = none ∧ ∃ m, r.error = some (pfx ++ m))

end AbnAmro

namespace AbnAmro

/-! Theorems about the embedded program. -/

/-- Helper fixture: a raw period carrying only a duration. -/
def durationOnlyPeriod (d : ℚ) : RawPeriod :=
  { duration := d, inactive := none, type := none, reflectionPeriod := none, rates := none }

/-- Bounds of the JavaScript rounding function: its result differs from its
argument by at most one half. -/
theorem jsRound_bounds (x : ℚ) :
    (jsRound x : ℚ) ≤ x + 1/2 ∧ x - 1/2 < (jsRound x : ℚ) := by
  constructor
  · exact Int.floor_le (x + 1/2)
  · have h := Int.sub_one_lt_floor (x + 1/2)
    have : x + 1/2 - 1 < (jsRound x : ℚ) := h
    linarith

/-- C9: for every integer duration in months, the normalized durationInYears is
the half-up rounding of duration/12*10 divided by 10, hence a multiple of one
tenth within 1/20 of the exact duration in years; duration 120 gives 10 and
duration 125 gives 10.4. -/
theorem C9_duration_in_years (d : ℤ) :
    (normalizePeriod (durationOnlyPeriod (d : ℚ))).durationInYears
        = ((⌊(d : ℚ) / 12 * 10 + 1/2⌋ : ℤ) : ℚ) / 10 ∧
    (∃ k : ℤ, (normalizePeriod (durationOnlyPeriod (d : ℚ))).durationInYears = (k : ℚ) / 10) ∧
    |(normalizePeriod (durationOnlyPeriod (d : ℚ))).durationInYears - (d : ℚ) / 12| ≤ 1 / 20 ∧
    (normalizePeriod (durationOnlyPeriod 120)).durationInYears = 10 ∧
    (normalizePeriod (durationOnlyPeriod 125)).durationInYears = 52 / 5 := by
  have hform : (normalizePeriod (durationOnlyPeriod (d : ℚ))).durationInYears
      = (jsRound ((d : ℚ) / 12 * 10) : ℚ) / 10 := rfl
  refine ⟨rfl, ⟨jsRound ((d : ℚ) / 12 * 10), rfl⟩, ?_,
    by norm_num [normalizePeriod, durationOnlyPeriod, jsRound],
    by norm_num [normalizePeriod, durationOnlyPeriod, jsRound]⟩
  have hb := jsRound_bounds ((d : ℚ) / 12 * 10)
  rw [hform, abs_le]
  constructor
  · nlinarith [hb.2]
  · nlinarith [hb.1]

/-- C3: for every valid InterestRateRequest, the upstream POST body holds exactly
the product, the repayment type (wire key "type") and the discounts, in that
order; the key "inactive" never appears in the body; the URL query is exactly
inactive=true when the inactive flag is set and empty when it is not. -/
theorem C3_upstream_request_shape (req : InterestRateRequest) :
    (buildInterestRateRequest req).body =
      some [("product", Jval.str req.product), ("type", Jval.str req.type),
            ("discounts", Jval.arr (req.discounts.map Discount.toJval))] ∧
    ((buildInterestRateRequest req).body.getD []).map Prod.fst
        = ["product", "type", "discounts"] ∧
    (∀ kv ∈ (buildInterestRateRequest req).body.getD [], kv.1 ≠ "inactive") ∧
    (req.inactive = true → (buildInterestRateRequest req).url.query = [("inactive", "true")]) ∧
    (req.inactive = false → (buildInterestRateRequest req).url.query = []) := by
  refine ⟨rfl, rfl, ?_, ?_, ?_⟩
  · intro kv hkv
    simp only [buildInterestRateRequest, Option.getD_some, List.mem_cons,
      List.not_mem_nil, or_false] at hkv
    rcases hkv with rfl | rfl | rfl <;> simp
  · intro h
    simp [buildInterestRateRequest, h]
  · intro h
    simp [buildInterestRateRequest, h]

/-- C3 witness: the theorem instantiated at concrete requests with the inactive
flag set and unset. -/
theorem C3_upstream_request_shape_witness :
    (buildInterestRateRequest ⟨"WONING", "LINEAIR", [Discount.bankAccount], true⟩).url.query
        = [("inactive", "true")] ∧
    (buildInterestRateRequest ⟨"BUDGET", "ANNUITAIR", [], false⟩).url.query = [] ∧
    ((buildInterestRateRequest ⟨"WONING", "LINEAIR", [Discount.bankAccount], true⟩).body.getD
        []).map Prod.fst = ["product", "type", "discounts"] := by
  have h1 := C3_upstream_request_shape ⟨"WONING", "LINEAIR", [Discount.bankAccount], true⟩
  have h2 := C3_upstream_request_shape ⟨"BUDGET", "ANNUITAIR", [], false⟩
  exact ⟨h1.2.2.2.1 rfl, h2.2.2.2.2 rfl, h1.2.1⟩

/-- C7: for every non-negative house price the property-transfer-tax adapter
returns a success envelope whose taxQuota is price times 0.02 above the 525000
threshold and zero otherwise; 525000 yields 0 and 600000 yields 12000. -/
theorem C7_property_transfer_tax (p : ℚ) (h : 0 ≤ p) :
    (∃ r, getPropertyTransferTax p = .ok r ∧ r.success = true ∧
        r.data.map PropertyTransferTaxData.taxQuota
          = some (if 525000 < p then p * (2 / 100) else 0)) ∧
    (getPropertyTransferTax 525000).map (fun r => r.data.map PropertyTransferTaxData.taxQuota)
        = .ok (some 0) ∧
    (getPropertyTransferTax 600000).map (fun r => r.data.map PropertyTransferTaxData.taxQuota)
        = .ok (some 12000) := by
  have hnl : ¬ p < 0 := not_lt.mpr h
  refine ⟨?_,
    by norm_num [getPropertyTransferTax, parseHouseTaxQuotaRequest, MaxTransferTaxPremiumCap,
      TransferTaxRate, mkSuccess, Except.map],
    by norm_num [getPropertyTransferTax, parseHouseTaxQuotaRequest, MaxTransferTaxPremiumCap,
      TransferTaxRate, mkSuccess, Except.map]⟩
  unfold getPropertyTransferTax parseHouseTaxQuotaRequest
  rw [if_neg hnl]
  exact ⟨_, rfl, rfl, rfl⟩

/-- C7 witness: the theorem instantiated at house price 600000. -/
theorem C7_property_transfer_tax_witness :
    ∃ r, getPropertyTransferTax 600000 = .ok r ∧ r.success = true ∧
      r.data.map PropertyTransferTaxData.taxQuota
        = some (if (525000 : ℚ) < 600000 then 600000 * (2 / 100) else 0) :=
  (C7_property_transfer_tax 600000 (by norm_num)).1

/-- C8: the maximum-mortgage GET query carries exactly mainIncome, plus
partnerIncome exactly when it was supplied, both in literal numeric string form;
incomes 50000 and 30000 render as mainIncome=50000&partnerIncome=30000. -/
theorem C8_max_mortgage_query (req : MaximumMortgageRequest) :
    ((buildMaximumMortgageRequest req).url.query.map Prod.fst =
        match req.partnerIncome with
        | none => ["mainIncome"]
        | some _ => ["mainIncome", "partnerIncome"]) ∧
    ("mainIncome", jsNumToString req.mainIncome) ∈ (buildMaximumMortgageRequest req).url.query ∧
    (∀ p, req.partnerIncome = some p →
        ("partnerIncome", jsNumToString p) ∈ (buildMaximumMortgageRequest req).url.query) ∧
    (req.partnerIncome = none →
        ∀ kv ∈ (buildMaximumMortgageRequest req).url.query, kv.1 ≠ "partnerIncome") ∧
    renderQuery (buildMaximumMortgageRequest ⟨50000, some 30000⟩).url.query
        = "mainIncome=50000&partnerIncome=30000" ∧
    (buildMaximumMortgageRequest ⟨50000, none⟩).url.query = [("mainIncome", "50000")] := by
  refine ⟨?_, ?_, ?_, ?_, by decide, by decide⟩
  · cases h : req.partnerIncome <;> simp [buildMaximumMortgageRequest, h]
  · cases h : req.partnerIncome <;> simp [buildMaximumMortgageRequest, h]
  · intro p hp
    simp [buildMaximumMortgageRequest, hp]
  · intro h kv hkv
    simp only [buildMaximumMortgageRequest, h, List.append_nil, List.mem_singleton] at hkv
    subst hkv
    simp

/-- C8 witness: the theorem instantiated at a request with and without a partner
income, discharging the hypotheses of the conditional conjuncts. -/
theorem C8_max_mortgage_query_witness :
    ("partnerIncome", jsNumToString 30000)
        ∈ (buildMaximumMortgageRequest ⟨50000, some 30000⟩).url.query ∧
    (∀ kv ∈ (buildMaximumMortgageRequest ⟨50000, none⟩).url.query, kv.1 ≠ "partnerIncome") := by
  have h1 := C8_max_mortgage_query ⟨50000, some 30000⟩
  have h2 := C8_max_mortgage_query ⟨50000, none⟩
  exact ⟨h1.2.2.1 30000 rfl, h2.2.2.2.1 rfl⟩

end AbnAmro

namespace AbnAmro

/-- C2: the interest-rate schema accepts exactly the closed product set
BUDGET, WONING and the closed repayment-type set ANNUITAIR, LINEAIR,
AFLOSSINGSVRIJ; any value outside either set makes validation fail, and a
failed validation issues no upstream request. -/
theorem C2_schema_enums (p t : String) (ds : Option (List RawDiscount)) (ia : Option Bool) :
    (∀ req, parseInterestRateRequest ⟨p, t, ds, ia⟩ = .ok req →
        p ∈ interestRateProducts ∧ t ∈ interestRateTypes) ∧
    (p ∈ interestRateProducts → t ∈ interestRateTypes →
        parseInterestRateRequest ⟨p, t, none, ia⟩ = .ok ⟨p, t, [], ia.getD false⟩) ∧
    ((p ∉ interestRateProducts ∨ t ∉ interestRateTypes) →
        (∃ e, parseInterestRateRequest ⟨p, t, ds, ia⟩ = .error e) ∧
        interestRateUpstreamRequest ⟨p, t, ds, ia⟩ = none) := by
  refine ⟨?_, ?_, ?_⟩
  · intro req hreq
    by_cases hp : p ∈ interestRateProducts
    · by_cases ht : t ∈ interestRateTypes
      · exact ⟨hp, ht⟩
      · simp [parseInterestRateRequest, hp, ht] at hreq
    · simp [parseInterestRateRequest, hp] at hreq
  · intro hp ht
    simp [parseInterestRateRequest, hp, ht, parseDiscounts]
  · intro hbad
    have herr : ∃ e, parseInterestRateRequest ⟨p, t, ds, ia⟩ = .error e := by
      rcases hbad with hp | ht
      · exact ⟨"Invalid enum value for product", by simp [parseInterestRateRequest, hp]⟩
      · by_cases hp2 : p ∈ interestRateProducts
        · exact ⟨"Invalid enum value for type", by simp [parseInterestRateRequest, hp2, ht]⟩
        · exact ⟨"Invalid enum value for product", by simp [parseInterestRateRequest, hp2]⟩
    obtain ⟨e, he⟩ := herr
    exact ⟨⟨e, he⟩, by simp [interestRateUpstreamRequest, he]⟩

/-- C2 witness: WONING with LINEAIR is accepted; an out-of-set product is
rejected and no upstream request is built. -/
theorem C2_schema_enums_witness :
    parseInterestRateRequest ⟨"WONING", "LINEAIR", none, none⟩
        = .ok ⟨"WONING", "LINEAIR", [], false⟩ ∧
    ((∃ e, parseInterestRateRequest ⟨"HYPOTHEEK", "ANNUITAIR", none, none⟩ = .error e) ∧
        interestRateUpstreamRequest ⟨"HYPOTHEEK", "ANNUITAIR", none, none⟩ = none) := by
  refine ⟨(C2_schema_enums "WONING" "LINEAIR" none none).2.1 (by decide) (by decide),
    (C2_schema_enums "HYPOTHEEK" "ANNUITAIR" none none).2.2 (Or.inl (by decide))⟩

/-- Helper: find? returns the first element satisfying the test in a split list. -/
theorem find?_first_match {l₁ l₂ : List RawRate} {r : RawRate}
    (h₁ : ∀ x ∈ l₁, x.type ≠ "NHG") (h₂ : r.type = "NHG") :
    (l₁ ++ r :: l₂).find? (fun x => x.type == "NHG") = some r := by
  induction l₁ with
  | nil => simp [List.find?, h₂]
  | cons a as ih =>
    have ha : (a.type == "NHG") = false := beq_eq_false_iff_ne.mpr (h₁ a (by simp))
    simp only [List.cons_append, List.find?, ha]
    exact ih (fun x hx => h₁ x (by simp [hx]))

/-- C6: the normalized rates of a period carry the value of the first NHG-tagged
entry — later NHG entries are dropped, as the duplicate-tag instance shows —
and the full LTV-tagged list reshaped to range/rate pairs. -/
theorem C6_nhg_first_match (l₁ l₂ : List RawRate) (r : RawRate)
    (h₁ : ∀ x ∈ l₁, x.type ≠ "NHG") (h₂ : r.type = "NHG") :
    (normalizeRates (some (l₁ ++ r :: l₂))).dutchNationalMortgageGuarantee = r.value ∧
    (normalizeRates (some (l₁ ++ r :: l₂))).lifeTimeValue
        = some (((l₁ ++ r :: l₂).filter (fun x => x.type == "LTV")).map
            (fun x => { range := x.ltv, rate := x.value })) ∧
    (normalizeRates (some [⟨"NHG", none, some 1⟩,
        ⟨"NHG", none, some 2⟩])).dutchNationalMortgageGuarantee = some 1 := by
  refine ⟨?_, rfl, by decide⟩
  simp [normalizeRates, find?_first_match h₁ h₂]

/-- C6 witness: with one LTV entry before it and a second NHG entry after it,
the first NHG entry's value is extracted. -/
theorem C6_nhg_first_match_witness :
    (normalizeRates (some ([RawRate.mk "LTV" (some "60-70%") (some 3)] ++
        RawRate.mk "NHG" none (some 2) :: [RawRate.mk "NHG" none (some 99)]))).dutchNationalMortgageGuarantee
      = some 2 := by
  have h := C6_nhg_first_match [RawRate.mk "LTV" (some "60-70%") (some 3)]
    [RawRate.mk "NHG" none (some 99)] (RawRate.mk "NHG" none (some 2)) (by decide) rfl
  exact h.1

/-- Helper fixture: an upstream interest-rate payload with every field absent. -/
def emptyInterestRatePayload : InterestRatePayload :=
  { overbruggingskrediet := none, renteblad := none, overbruggingskredieten := none
  , periods := none, interestRate := none, effectiveRate := none, baseRate := none
  , appliedDiscounts := none, calculationDate := none }

/-- C4 counterexample: a payload with one period whose rates list is absent makes
the adapter emit lifeTimeValue as absent (none), not as the empty sequence the
claim demands. -/
theorem C4_counterexample :
    ((calculateInterestRate ⟨"BUDGET", "ANNUITAIR", none, none⟩
        (.ok { emptyInterestRatePayload with
                periods := some [durationOnlyPeriod 120] })).data.map
        (fun d => d.periods.map (fun per => per.rates.lifeTimeValue)))
      = some [none] ∧
    some [Option.none (α := List LtvEntry)] ≠ some [some []] := by
  exact ⟨rfl, by simp⟩

/-- C4 (amended): a missing periods array yields data.periods = [] inside a
success envelope, and a missing rates list inside a period yields absent
(undefined) national-guarantee and lifeTimeValue fields — not an empty
sequence — with no fault in either case. -/
theorem C4_missing_lists (args : RawInterestRateArgs) (req : InterestRateRequest)
    (payload : InterestRatePayload) (per : RawPeriod)
    (hargs : parseInterestRateRequest args = .ok req) :
    (payload.periods = none →
        calculateInterestRate args (.ok payload)
          = mkSuccess (mkInterestRateData req payload) ∧
        (mkInterestRateData req payload).periods = []) ∧
    (per.rates = none →
        (normalizePeriod per).rates.dutchNationalMortgageGuarantee = none ∧
        (normalizePeriod per).rates.lifeTimeValue = none) := by
  constructor
  · intro hp
    constructor
    · simp [calculateInterestRate, hargs, UpstreamOutcome.toExcept]
    · simp [mkInterestRateData, hp]
  · intro hr
    exact ⟨by simp [normalizePeriod, normalizeRates, hr],
           by simp [normalizePeriod, normalizeRates, hr]⟩

/-- C4 witness: the amended theorem instantiated at a concrete request, an empty
payload and a period without rates. -/
theorem C4_missing_lists_witness :
    (mkInterestRateData ⟨"BUDGET", "ANNUITAIR", [], false⟩ emptyInterestRatePayload).periods
        = [] ∧
    (normalizePeriod (durationOnlyPeriod 120)).rates.lifeTimeValue = none := by
  have h := C4_missing_lists ⟨"BUDGET", "ANNUITAIR", none, none⟩
    ⟨"BUDGET", "ANNUITAIR", [], false⟩ emptyInterestRatePayload (durationOnlyPeriod 120) rfl
  exact ⟨(h.1 rfl).2, (h.2 rfl).2⟩

end AbnAmro

namespace AbnAmro

/-- Helper fixture: an upstream maximum-mortgage payload whose maximumMortgage is
present with the value zero. -/
def zeroMortgagePayload : MaximumMortgagePayload :=
  { value := some { maximumMortgage := some 0, monthlyPayment := some 1250
                  , interest := some (7/2) }
  , messages := none }

/-- C5 counterexample: a successful upstream payload whose value.maximumMortgage
is present and equal to 0 is returned as null (none), so the output does not
equal the provider's present value as the claim demands. -/
theorem C5_counterexample :
    ((calculateMaximumMortgage ⟨some 1, none⟩ (.ok zeroMortgagePayload)).data.map
        MaximumMortgageData.maximumMortgage) = some none ∧
    zeroMortgagePayload.value.bind MortgageValue.maximumMortgage = some 0 ∧
    some (Option.none (α := ℚ)) ≠ some (some (0 : ℚ)) := by
  exact ⟨rfl, rfl, by simp⟩

/-- C5 (amended): on every successful upstream response the maximum-mortgage
adapter returns a success envelope in which each of the three numeric fields
equals the provider's value when that value is present and nonzero, and null
when it is absent or zero (JavaScript falsiness), together with the provider's
messages passthrough and an echo of the validated request parameters. -/
theorem C5_success_extraction (m : ℚ) (pIn : Option ℚ) (hm : 0 ≤ m)
    (hp : ∀ x ∈ pIn, 0 ≤ x) (payload : MaximumMortgagePayload) :
    ∃ d, calculateMaximumMortgage ⟨some m, pIn⟩ (.ok payload) = mkSuccess d ∧
      (∀ v : ℚ, payload.value.bind MortgageValue.maximumMortgage = some v → v ≠ 0 →
          d.maximumMortgage = some v) ∧
      (payload.value.bind MortgageValue.maximumMortgage = none → d.maximumMortgage = none) ∧
      (payload.value.bind MortgageValue.maximumMortgage = some 0 → d.maximumMortgage = none) ∧
      (∀ v : ℚ, payload.value.bind MortgageValue.monthlyPayment = some v → v ≠ 0 →
          d.monthlyPayment = some v) ∧
      (payload.value.bind MortgageValue.monthlyPayment = none → d.monthlyPayment = none) ∧
      (payload.value.bind MortgageValue.monthlyPayment = some 0 → d.monthlyPayment = none) ∧
      (∀ v : ℚ, payload.value.bind MortgageValue.interest = some v → v ≠ 0 →
          d.interest = some v) ∧
      (payload.value.bind MortgageValue.interest = none → d.interest = none) ∧
      (payload.value.bind MortgageValue.interest = some 0 → d.interest = none) ∧
      d.messages = payload.messages ∧
      d.requestParameters = ⟨m, pIn⟩ := by
  have hparse : parseMaximumMortgageRequest ⟨some m, pIn⟩ = .ok ⟨m, pIn⟩ := by
    cases pIn with
    | none => simp [parseMaximumMortgageRequest, not_lt.mpr hm]
    | some p =>
      simp [parseMaximumMortgageRequest, not_lt.mpr hm, not_lt.mpr (hp p (by simp))]
  refine ⟨mkMaximumMortgageData ⟨m, pIn⟩ payload, ?_, ?_, ?_, ?_, ?_, ?_, ?_, ?_, ?_, ?_,
    rfl, rfl⟩
  · simp [calculateMaximumMortgage, hparse, UpstreamOutcome.toExcept]
  · intro v hv hv0
    simp [mkMaximumMortgageData, hv, jsOrNull, hv0]
  · intro hv
    simp [mkMaximumMortgageData, hv, jsOrNull]
  · intro hv
    simp [mkMaximumMortgageData, hv, jsOrNull]
  · intro v hv hv0
    simp [mkMaximumMortgageData, hv, jsOrNull, hv0]
  · intro hv
    simp [mkMaximumMortgageData, hv, jsOrNull]
  · intro hv
    simp [mkMaximumMortgageData, hv, jsOrNull]
  · intro v hv hv0
    simp [mkMaximumMortgageData, hv, jsOrNull, hv0]
  · intro hv
    simp [mkMaximumMortgageData, hv, jsOrNull]
  · intro hv
    simp [mkMaximumMortgageData, hv, jsOrNull]

/-- C5 witness: the amended theorem instantiated at incomes 50000 and 30000 and
a payload with a nonzero maximumMortgage, a present zero monthlyPayment and an
absent interest: the zero is returned as null exactly like the absent field. -/
theorem C5_success_extraction_witness :
    ∃ d, calculateMaximumMortgage ⟨some 50000, some 30000⟩
        (.ok { value := some { maximumMortgage := some 280000, monthlyPayment := some 0
                             , interest := none }
             , messages := none }) = mkSuccess d ∧
      d.maximumMortgage = some 280000 ∧ d.monthlyPayment = none ∧ d.interest = none := by
  obtain ⟨d, hd, hmaxv, hmaxn, hmax0, hmpv, hmpn, hmp0, hintv, hintn, hint0, hmsg, hreq⟩ :=
    C5_success_extraction 50000 (some 30000) (by norm_num) (by simp)
      { value := some { maximumMortgage := some 280000, monthlyPayment := some 0
                      , interest := none }
      , messages := none }
  exact ⟨d, hd, hmaxv 280000 rfl (by norm_num), hmp0 rfl, hintn rfl⟩

/-- Helper: the JavaScript coalescing of an optional number with null never
yields the number zero. -/
theorem jsOrNull_ne_some_zero (x : Option ℚ) : jsOrNull x ≠ some 0 := by
  cases x with
  | none => simp [jsOrNull]
  | some v => by_cases hv : v = 0 <;> simp [jsOrNull, hv]

/-- C10: a present but zero value.maximumMortgage, value.monthlyPayment or
value.interest is returned as null, indistinguishable from an absent field —
for each of the three fields, a present zero and an absent field both yield
none — and no successful invocation ever returns zero in any of the three
fields. -/
theorem C10_falsy_zero (args : RawMaximumMortgageArgs)
    (o : UpstreamOutcome MaximumMortgagePayload)
    (req : MaximumMortgageRequest) (payload : MaximumMortgagePayload) :
    (∀ d, (calculateMaximumMortgage args o).data = some d →
        d.maximumMortgage ≠ some 0 ∧ d.monthlyPayment ≠ some 0 ∧ d.interest ≠ some 0) ∧
    (payload.value.bind MortgageValue.maximumMortgage = some 0 →
        (mkMaximumMortgageData req payload).maximumMortgage = none) ∧
    (payload.value.bind MortgageValue.maximumMortgage = none →
        (mkMaximumMortgageData req payload).maximumMortgage = none) ∧
    (payload.value.bind MortgageValue.monthlyPayment = some 0 →
        (mkMaximumMortgageData req payload).monthlyPayment = none) ∧
    (payload.value.bind MortgageValue.monthlyPayment = none →
        (mkMaximumMortgageData req payload).monthlyPayment = none) ∧
    (payload.value.bind MortgageValue.interest = some 0 →
        (mkMaximumMortgageData req payload).interest = none) ∧
    (payload.value.bind MortgageValue.interest = none →
        (mkMaximumMortgageData req payload).interest = none) := by
  refine ⟨?_, ?_, ?_, ?_, ?_, ?_, ?_⟩
  · intro d hd
    cases hparse : parseMaximumMortgageRequest args with
    | error e => simp [calculateMaximumMortgage, hparse, mkFailure] at hd
    | ok r =>
      cases o with
      | ok payload2 =>
        simp only [calculateMaximumMortgage, hparse, UpstreamOutcome.toExcept,
          mkSuccess, Option.some.injEq] at hd
        subst hd
        exact ⟨jsOrNull_ne_some_zero _, jsOrNull_ne_some_zero _, jsOrNull_ne_some_zero _⟩
      | transportFailure m =>
        simp [calculateMaximumMortgage, hparse, UpstreamOutcome.toExcept, mkFailure] at hd
      | httpFailure s b =>
        simp [calculateMaximumMortgage, hparse, UpstreamOutcome.toExcept, mkFailure] at hd
      | invalidJson m =>
        simp [calculateMaximumMortgage, hparse, UpstreamOutcome.toExcept, mkFailure] at hd
  · intro h
    simp [mkMaximumMortgageData, h, jsOrNull]
  · intro h
    simp [mkMaximumMortgageData, h, jsOrNull]
  · intro h
    simp [mkMaximumMortgageData, h, jsOrNull]
  · intro h
    simp [mkMaximumMortgageData, h, jsOrNull]
  · intro h
    simp [mkMaximumMortgageData, h, jsOrNull]
  · intro h
    simp [mkMaximumMortgageData, h, jsOrNull]

/-- Helper fixture: an upstream maximum-mortgage payload with zero
maximumMortgage and monthlyPayment and an absent interest. -/
def zeroPaymentPayload : MaximumMortgagePayload :=
  { value := some { maximumMortgage := some 0, monthlyPayment := some 0, interest := none }
  , messages := none }

/-- C10 witness: the theorem instantiated at a concrete successful invocation
whose payload carries present zeros and an absent field: all three output
fields come back none, and the present-zero field is not returned as zero. -/
theorem C10_falsy_zero_witness :
    (mkMaximumMortgageData ⟨1, none⟩ zeroPaymentPayload).maximumMortgage = none ∧
    (mkMaximumMortgageData ⟨1, none⟩ zeroPaymentPayload).monthlyPayment = none ∧
    (mkMaximumMortgageData ⟨1, none⟩ zeroPaymentPayload).interest = none ∧
    (mkMaximumMortgageData ⟨1, none⟩ zeroPaymentPayload).maximumMortgage ≠ some 0 := by
  have h := C10_falsy_zero ⟨some 1, none⟩ (.ok zeroPaymentPayload) ⟨1, none⟩
      zeroPaymentPayload
  exact ⟨h.2.1 rfl, h.2.2.2.1 rfl, h.2.2.2.2.2.2 rfl,
    (h.1 (mkMaximumMortgageData ⟨1, none⟩ zeroPaymentPayload) rfl).1⟩

/-- C1 counterexample: the property-transfer-tax adapter on a negative house
price propagates a validation exception to the caller instead of returning a
success-false envelope, because the schema parse stands outside the try/catch. -/
theorem C1_counterexample :
    getPropertyTransferTax (-1) = Except.error "Number must be greater than or equal to 0" := rfl

/-- Helper: a success envelope is well formed. -/
theorem mkSuccess_wellFormed {α : Type} (d : α) (pfx : String) :
    (mkSuccess d).wellFormed pfx := Or.inl ⟨rfl, rfl, rfl⟩

/-- Helper: a failure envelope built with the fixed message text is well formed. -/
theorem mkFailure_wellFormed {α : Type} (pfx m : String) :
    (mkFailure pfx m : ToolResult α).wellFormed pfx := Or.inr ⟨rfl, rfl, ⟨m, rfl⟩⟩

/-- C1 (amended): the interest-rate and maximum-mortgage adapters return a
well-formed envelope on every input and upstream outcome, and in particular
convert every raised error — a validation failure or an upstream exception —
into exactly the failure envelope success:false with the fixed message text
prefixed to the raised message, while a successful exchange yields a success
envelope; the two constant fact adapters always return success envelopes; the
property-transfer-tax adapter returns a success envelope on non-negative
housePrice but propagates a validation exception on negative housePrice. -/
theorem C1_envelope_policy (irArgs : RawInterestRateArgs)
    (irOut : UpstreamOutcome InterestRatePayload)
    (mmArgs : RawMaximumMortgageArgs) (mmOut : UpstreamOutcome MaximumMortgagePayload)
    (p : ℚ) :
    (calculateInterestRate irArgs irOut).wellFormed interestRateFailureText ∧
    (∀ e, parseInterestRateRequest irArgs = .error e →
        calculateInterestRate irArgs irOut = mkFailure interestRateFailureText e) ∧
    (∀ req, parseInterestRateRequest irArgs = .ok req →
        (∀ e, irOut.toExcept = .error e →
            calculateInterestRate irArgs irOut = mkFailure interestRateFailureText e) ∧
        (∀ payload, irOut = .ok payload →
            calculateInterestRate irArgs irOut = mkSuccess (mkInterestRateData req payload))) ∧
    (calculateMaximumMortgage mmArgs mmOut).wellFormed maximumMortgageFailureText ∧
    (∀ e, parseMaximumMortgageRequest mmArgs = .error e →
        calculateMaximumMortgage mmArgs mmOut = mkFailure maximumMortgageFailureText e) ∧
    (∀ req, parseMaximumMortgageRequest mmArgs = .ok req →
        (∀ e, mmOut.toExcept = .error e →
            calculateMaximumMortgage mmArgs mmOut = mkFailure maximumMortgageFailureText e) ∧
        (∀ payload, mmOut = .ok payload →
            calculateMaximumMortgage mmArgs mmOut
              = mkSuccess (mkMaximumMortgageData req payload))) ∧
    (0 ≤ p → ∃ r, getPropertyTransferTax p = .ok r ∧ r.success = true) ∧
    (p < 0 → ∃ e, getPropertyTransferTax p = .error e) ∧
    getMortageInterestRateDeduction.success = true ∧
    getMaximumMortageNationalHomeGuarantee.success = true := by
  refine ⟨?_, ?_, ?_, ?_, ?_, ?_, ?_, ?_, rfl, rfl⟩
  · cases hparse : parseInterestRateRequest irArgs with
    | error e =>
      simp only [calculateInterestRate, hparse]
      exact mkFailure_wellFormed _ _
    | ok req =>
      cases irOut with
      | ok payload =>
        simp only [calculateInterestRate, hparse, UpstreamOutcome.toExcept]
        exact mkSuccess_wellFormed _ _
      | transportFailure m =>
        simp only [calculateInterestRate, hparse, UpstreamOutcome.toExcept]
        exact mkFailure_wellFormed _ _
      | httpFailure s b =>
        simp only [calculateInterestRate, hparse, UpstreamOutcome.toExcept]
        exact mkFailure_wellFormed _ _
      | invalidJson m =>
        simp only [calculateInterestRate, hparse, UpstreamOutcome.toExcept]
        exact mkFailure_wellFormed _ _
  · intro e he
    simp [calculateInterestRate, he]
  · intro req hreq
    constructor
    · intro e he
      simp [calculateInterestRate, hreq, he]
    · intro payload hpay
      subst hpay
      simp [calculateInterestRate, hreq, UpstreamOutcome.toExcept]
  · cases hparse : parseMaximumMortgageRequest mmArgs with
    | error e =>
      simp only [calculateMaximumMortgage, hparse]
      exact mkFailure_wellFormed _ _
    | ok req =>
      cases mmOut with
      | ok payload =>
        simp only [calculateMaximumMortgage, hparse, UpstreamOutcome.toExcept]
        exact mkSuccess_wellFormed _ _
      | transportFailure m =>
        simp only [calculateMaximumMortgage, hparse, UpstreamOutcome.toExcept]
        exact mkFailure_wellFormed _ _
      | httpFailure s b =>
        simp only [calculateMaximumMortgage, hparse, UpstreamOutcome.toExcept]
        exact mkFailure_wellFormed _ _
      | invalidJson m =>
        simp only [calculateMaximumMortgage, hparse, UpstreamOutcome.toExcept]
        exact mkFailure_wellFormed _ _
  · intro e he
    simp [calculateMaximumMortgage, he]
  · intro req hreq
    constructor
    · intro e he
      simp [calculateMaximumMortgage, hreq, he]
    · intro payload hpay
      subst hpay
      simp [calculateMaximumMortgage, hreq, UpstreamOutcome.toExcept]
  · intro h0
    have hnl : ¬ p < 0 := not_lt.mpr h0
    refine ⟨mkSuccess { taxQuota := if p > MaxTransferTaxPremiumCap then p * TransferTaxRate
                          else 0
                      , description := transferTaxDescription }, ?_, rfl⟩
    unfold getPropertyTransferTax parseHouseTaxQuotaRequest
    rw [if_neg hnl]
  · intro hneg
    refine ⟨"Number must be greater than or equal to 0", ?_⟩
    unfold getPropertyTransferTax parseHouseTaxQuotaRequest
    rw [if_pos hneg]

/-- C1 witness: the amended theorem instantiated at a rejected product value, a
non-2xx upstream exchange, a transport failure, and house prices 1 and -1: the
raised errors come back as prefixed failure envelopes and the negative price
propagates. -/
theorem C1_envelope_policy_witness :
    calculateInterestRate ⟨"HUIS", "ANNUITAIR", none, none⟩ (.httpFailure 500 "boom")
        = mkFailure interestRateFailureText "Invalid enum value for product" ∧
    calculateInterestRate ⟨"BUDGET", "ANNUITAIR", none, none⟩ (.httpFailure 500 "boom")
        = mkFailure interestRateFailureText "ABN AMRO API error (500): boom" ∧
    calculateMaximumMortgage ⟨some 1, none⟩ (.transportFailure "fetch failed")
        = mkFailure maximumMortgageFailureText "fetch failed" ∧
    (∃ r, getPropertyTransferTax 1 = .ok r ∧ r.success = true) ∧
    (∃ e, getPropertyTransferTax (-1) = .error e) := by
  have h1 := C1_envelope_policy ⟨"HUIS", "ANNUITAIR", none, none⟩ (.httpFailure 500 "boom")
      ⟨some 1, none⟩ (.transportFailure "fetch failed") 1
  have h2 := C1_envelope_policy ⟨"BUDGET", "ANNUITAIR", none, none⟩ (.httpFailure 500 "boom")
      ⟨some 1, none⟩ (.transportFailure "fetch failed") (-1)
  refine ⟨h1.2.1 "Invalid enum value for product" rfl,
    (h2.2.2.1 ⟨"BUDGET", "ANNUITAIR", [], false⟩ rfl).1 "ABN AMRO API error (500): boom" rfl,
    (h1.2.2.2.2.2.1 ⟨1, none⟩ rfl).1 "fetch failed" rfl,
    h1.2.2.2.2.2.2.1 (by norm_num),
    h2.2.2.2.2.2.2.2.1 (by norm_num)⟩

end AbnAmro
